import Mathlib

/-!
# EyeRescue: the MainWindow controller of `mainwindow.cpp`

A shallow embedding of `MainWindow` (settings form, two `QTimer`s, tray icon,
persisted `QSettings`, external lock commands) as a pure state machine.

* The members `activateTime` / `remindTime` are declared in `mainwindow.h` and the
  spin boxes are created by `ui_mainwindow.h`; neither header is part of the sources
  at hand, so the member type (`CInt`) and the form as `setupUi` builds it (`Ui`) are
  parameters of the model.
* `QSpinBox`, `QTimer`, `QSettings`, `QProcess::execute` and `QMessageBox` are Qt
  library objects; their documented behaviour is modelled by the small definitions
  of the first sections.
-/

namespace EyeRescue

/-! ## C++ integer types -/

/-- Integer types a member of `MainWindow` can be declared with (Qt typedefs). -/
inductive CInt where
  | qint8 | quint8 | qint16 | quint16 | qint32 | quint32 | qint64 | quint64
  deriving DecidableEq, Repr

/-- Width of the type in bits. -/
def CInt.bits : CInt → Nat
  | .qint8 => 8 | .quint8 => 8
  | .qint16 => 16 | .quint16 => 16
  | .qint32 => 32 | .quint32 => 32
  | .qint64 => 64 | .quint64 => 64

/-- Signedness of the type. -/
def CInt.isSigned : CInt → Bool
  | .qint8 => true | .qint16 => true | .qint32 => true | .qint64 => true
  | .quint8 => false | .quint16 => false | .quint32 => false | .quint64 => false

/-- Least representable value. -/
def CInt.minVal (t : CInt) : Int :=
  if t.isSigned then -(2 ^ (t.bits - 1)) else 0

/-- Greatest representable value. -/
def CInt.maxVal (t : CInt) : Int :=
  if t.isSigned then 2 ^ (t.bits - 1) - 1 else 2 ^ t.bits - 1

/-- The value is representable in the type: computing it does not overflow. -/
def CInt.holds (t : CInt) (v : Int) : Prop :=
  t.minVal ≤ v ∧ v ≤ t.maxVal

instance (t : CInt) (v : Int) : Decidable (t.holds v) := by
  unfold CInt.holds
  exact inferInstance

/-- Conversion of an integer value to the type (reduction modulo `2 ^ bits`; for the
signed types the two's complement result every supported compiler produces). -/
def CInt.convert (t : CInt) (v : Int) : Int :=
  if t.isSigned then (v + 2 ^ (t.bits - 1)) % 2 ^ t.bits - 2 ^ (t.bits - 1)
  else v % 2 ^ t.bits

/-- Integral promotion: every type narrower than `int` is promoted to `int`. -/
def CInt.promote (t : CInt) : CInt :=
  if t.bits < 32 then .qint32 else t

/-- Usual arithmetic conversions: the common type of two promoted operand types. -/
def CInt.common (a b : CInt) : CInt :=
  if a.bits < b.bits then b
  else if b.bits < a.bits then a
  else if a.isSigned then b else a

/-- The constant `LOCK_TIME_DEFAULT` (a `quint8`). -/
def LOCK_TIME_DEFAULT : Int := 20

/-- The constant `REMIND_TIME_DEFAULT` (a `quint8`). -/
def REMIND_TIME_DEFAULT : Int := 1

/-- The constant `MILLISECONDS_PER_MIN` (a `quint16`). -/
def MILLISECONDS_PER_MIN : Int := 60000

/-- The key `LOCK_TIME_SETTING`. -/
def LOCK_TIME_SETTING : String := "lock_time"

/-- The key `REMIND_TIME_SETTING`. -/
def REMIND_TIME_SETTING : String := "remind_time"

/-- Type in which `activateTime * MILLISECONDS_PER_MIN` and
`(activateTime - remindTime) * MILLISECONDS_PER_MIN` are evaluated for members of
type `ty`. -/
def arithType (ty : CInt) : CInt :=
  CInt.common ty.promote CInt.quint16.promote

/-- Argument of `activateTimer->start(activateTime * MILLISECONDS_PER_MIN)`: the
product in the arithmetic type, converted to the `int` parameter of `QTimer::start`. -/
def lockDelay (ty : CInt) (activateTime : Int) : Int :=
  CInt.qint32.convert ((arithType ty).convert (activateTime * MILLISECONDS_PER_MIN))

/-- Argument of `remindTimer->start((activateTime - remindTime) * MILLISECONDS_PER_MIN)`. -/
def remindDelay (ty : CInt) (activateTime remindTime : Int) : Int :=
  CInt.qint32.convert ((arithType ty).convert
    (ty.promote.convert (activateTime - remindTime) * MILLISECONDS_PER_MIN))

/-- No step of the two delay computations of `resetTimers` leaves the range of the
type it is evaluated in. -/
def delaysExact (ty : CInt) (activateTime remindTime : Int) : Prop :=
  (arithType ty).holds (activateTime * MILLISECONDS_PER_MIN) ∧
  CInt.qint32.holds (activateTime * MILLISECONDS_PER_MIN) ∧
  ty.promote.holds (activateTime - remindTime) ∧
  (arithType ty).holds ((activateTime - remindTime) * MILLISECONDS_PER_MIN) ∧
  CInt.qint32.holds ((activateTime - remindTime) * MILLISECONDS_PER_MIN)

/-! ## Qt objects -/

/-- A `QSpinBox`: range and value. -/
structure QSpinBox where
  minimum : Int
  maximum : Int
  value : Int
  deriving DecidableEq, Repr

/-- The clamp `QAbstractSpinBoxPrivate::bound` (no wrapping). -/
def QSpinBox.bound (sb : QSpinBox) (v : Int) : Int :=
  let v1 := if v < sb.minimum then sb.minimum else v
  if v1 > sb.maximum then sb.maximum else v1

/-- The call `QSpinBox::setValue`: the value is bounded by the current range. -/
def QSpinBox.setValue (sb : QSpinBox) (v : Int) : QSpinBox :=
  { sb with value := sb.bound v }

/-- The call `QSpinBox::setRange`: the maximum is never left below the minimum and
the value is bounded by the new range. -/
def QSpinBox.setRange (sb : QSpinBox) (lo hi : Int) : QSpinBox :=
  let sb1 := { sb with minimum := lo, maximum := if lo < hi then hi else lo }
  sb1.setValue sb1.value

/-- The call `QSpinBox::setMaximum`: a minimum above the new maximum is lowered to it. -/
def QSpinBox.setMaximum (sb : QSpinBox) (m : Int) : QSpinBox :=
  sb.setRange (if sb.minimum < m then sb.minimum else m) m

/-- A `QTimer`: `elapsed` is the time in ms since it was started or last fired. -/
structure QTimer where
  isActive : Bool
  interval : Int
  isSingleShot : Bool
  elapsed : Int
  deriving DecidableEq, Repr

/-- A timer as `new QTimer` creates it: idle, repeating, interval 0. -/
def QTimer.create : QTimer :=
  { isActive := false, interval := 0, isSingleShot := false, elapsed := 0 }

/-- The call `QTimer::start(int msec)`: sets the interval and (re)starts the timer
from zero. -/
def QTimer.start (t : QTimer) (msec : Int) : QTimer :=
  { t with isActive := true, interval := msec, elapsed := 0 }

/-- The call `QTimer::stop`. -/
def QTimer.stop (t : QTimer) : QTimer :=
  { t with isActive := false }

/-- Time passes: an active timer accumulates it. -/
def QTimer.advance (t : QTimer) (ms : Int) : QTimer :=
  if t.isActive then { t with elapsed := t.elapsed + ms } else t

/-- The timer emits `timeout()`: a single-shot timer stops, a repeating one starts its
next period. -/
def QTimer.fire (t : QTimer) : QTimer :=
  if t.isSingleShot then { t with isActive := false, elapsed := 0 }
  else { t with elapsed := 0 }

/-- Time left until the next `timeout()` of an active timer. -/
def QTimer.remaining (t : QTimer) : Int :=
  t.interval - t.elapsed

/-- The persisted `QSettings` store: integer values by key, most recent first. -/
abbrev QSettings := List (String × Int)

/-- The call `QSettings::value(key, defaultValue)`. -/
def QSettings.value (st : QSettings) (key : String) (defaultValue : Int) : Int :=
  match st.lookup key with
  | some v => v
  | none => defaultValue

/-- The call `QSettings::setValue(key, value)`. -/
def QSettings.setValue (st : QSettings) (key : String) (v : Int) : QSettings :=
  (key, v) :: st

/-- The call `QVariant::toUInt` on an integer variant. -/
def toUInt (v : Int) : Int :=
  CInt.quint32.convert v

/-- The enumerator `QProcess::NormalExit`. -/
def QProcess.NormalExit : Int := 0

/-- The enumerator `QProcess::CrashExit`. -/
def QProcess.CrashExit : Int := 1

/-- Answers of a `QMessageBox`. -/
inductive StandardButton where
  | Yes | No | Ok | Cancel | NoButton
  deriving DecidableEq, Repr

/-- Which of the two timers. -/
inductive TimerId where
  | activateTimer | remindTimer
  deriving DecidableEq, Repr

/-- Effects of the controller on its environment, in the order they happen. -/
inductive Effect where
  | timerStart (timer : TimerId) (msec : Int)
  | timerStop (timer : TimerId)
  | setIcon (active : Bool)
  | execute (command : String)
  | question (text : String)
  | critical (text : String)
  | showMessage (text : String)
  | showWindow
  | hideWindow
  | quit
  deriving DecidableEq, Repr

/-! ## MainWindow -/

/-- The form as `setupUi` creates it. -/
structure Ui where
  lockScreenSpinBox : QSpinBox
  remindSpinBox : QSpinBox
  deriving DecidableEq, Repr

/-- State of the controller and of the objects it owns or talks to. -/
structure MainWindow where
  lockScreenSpinBox : QSpinBox
  remindSpinBox : QSpinBox
  /-- Whether `valueChanged(int)` of the lock field is connected to
  `changeRemindBeforeMaxValue`. -/
  connected : Bool
  activateTimer : QTimer
  remindTimer : QTimer
  activateTime : Int
  remindTime : Int
  settings : QSettings
  activeIcon : Bool
  visible : Bool
  quitRequested : Bool
  effects : List Effect
  deriving DecidableEq, Repr

/-- Appends an effect to the log. -/
def MainWindow.emit (s : MainWindow) (e : Effect) : MainWindow :=
  { s with effects := s.effects ++ [e] }

/-- The method `MainWindow::setActiveStatusIcon`. -/
def setActiveStatusIcon (active : Bool) (s : MainWindow) : MainWindow :=
  if active then ({ s with activeIcon := true }).emit (.setIcon true)
  else ({ s with activeIcon := false }).emit (.setIcon false)

/-- The method `MainWindow::resetTimers`. -/
def resetTimers (ty : CInt) (s : MainWindow) : MainWindow :=
  let d1 := lockDelay ty s.activateTime
  let s1 := ({ s with activateTimer := s.activateTimer.start d1 }).emit
    (.timerStart .activateTimer d1)
  let d2 := remindDelay ty s1.activateTime s1.remindTime
  let s2 := ({ s1 with remindTimer := s1.remindTimer.start d2 }).emit
    (.timerStart .remindTimer d2)
  setActiveStatusIcon true s2

/-- The method `MainWindow::stopTimers`. -/
def stopTimers (s : MainWindow) : MainWindow :=
  let s1 := ({ s with activateTimer := s.activateTimer.stop }).emit (.timerStop .activateTimer)
  let s2 := ({ s1 with remindTimer := s1.remindTimer.stop }).emit (.timerStop .remindTimer)
  setActiveStatusIcon false s2

/-- The list `lockScreenCommands` of `MainWindow::lockScreen`. -/
def lockScreenCommands : List String :=
  [ "gnome-screensaver-command --lock",
    "xscreensaver-command --lock",
    "qdbus org.freedesktop.ScreenSaver /ScreenSaver Lock",
    "qdbus org.gnome.ScreenSaver /ScreenSaver Lock",
    "xlock" ]

/-- The `foreach` loop of `MainWindow::lockScreen` over the remaining commands:
the returned value and the commands executed, in order. -/
def lockScreenLoop (execute : String → Int) : List String → Int × List String
  | [] => (QProcess.CrashExit, [])
  | command :: rest =>
    if execute command = QProcess.NormalExit then (QProcess.NormalExit, [command])
    else ((lockScreenLoop execute rest).1, command :: (lockScreenLoop execute rest).2)

/-- The method `MainWindow::lockScreen`; `execute` gives the result of
`QProcess::execute` for each command. -/
def lockScreen (execute : String → Int) : Int × List String :=
  lockScreenLoop execute lockScreenCommands

/-- Text of the fatal dialog of `activate`. -/
def lockUnavailableText : String :=
  "Your lock screen is not available.\nPlease <a href = 'mailto:dikanchukov@mail.ru'>contact</a> developer."

/-- Text of the fatal dialog of `initSystemTrayIcon`. -/
def trayUnsupportedText : String :=
  "Your system tray is not supported.\nPlease <a href = 'mailto:dikanchukov@mail.ru'>contact</a> developer."

/-- The method `MainWindow::activate`; `answer` is what the user answers to the
question dialog, should it be shown. -/
def activate (ty : CInt) (execute : String → Int) (answer : StandardButton)
    (s : MainWindow) : MainWindow :=
  let s1 := stopTimers s
  let s2 := { s1 with effects := s1.effects ++ (lockScreen execute).2.map Effect.execute }
  if (lockScreen execute).1 = QProcess.NormalExit then
    let s3 := s2.emit (.question "Ready to continue?")
    if answer = StandardButton.Yes then resetTimers ty s3 else s3
  else
    let s3 := s2.emit (.critical lockUnavailableText)
    ({ s3 with quitRequested := true }).emit .quit

/-- Text of the notification of `remind`: `QString::number(remindTime) + " min. left"`. -/
def remindText (remindTime : Int) : String :=
  toString remindTime ++ " min. left"

/-- The method `MainWindow::remind`. -/
def remind (s : MainWindow) : MainWindow :=
  s.emit (.showMessage (remindText s.remindTime))

/-- The method `MainWindow::changeRemindBeforeMaxValue`: `--value` on an `int`. -/
def changeRemindBeforeMaxValue (value : Int) (s : MainWindow) : MainWindow :=
  { s with remindSpinBox := s.remindSpinBox.setMaximum (CInt.qint32.convert (value - 1)) }

/-- The call `ui->lockScreenSpinBox->setValue(v)`: when the value changes and the
signal is connected, the slot `changeRemindBeforeMaxValue` runs with the new value. -/
def setLockValue (v : Int) (s : MainWindow) : MainWindow :=
  let sb := s.lockScreenSpinBox.setValue v
  let s1 := { s with lockScreenSpinBox := sb }
  if s.connected ∧ sb.value ≠ s.lockScreenSpinBox.value then
    changeRemindBeforeMaxValue sb.value s1
  else s1

/-- The call `ui->remindSpinBox->setValue(v)` (its `valueChanged` is not connected). -/
def setRemindValue (v : Int) (s : MainWindow) : MainWindow :=
  { s with remindSpinBox := s.remindSpinBox.setValue v }

/-- The method `MainWindow::readSettings`. -/
def readSettings (ty : CInt) (s : MainWindow) : MainWindow :=
  let s1 := { s with
    activateTime := ty.convert (toUInt (QSettings.value s.settings LOCK_TIME_SETTING LOCK_TIME_DEFAULT)) }
  let s2 := { s1 with
    remindTime := ty.convert (toUInt (QSettings.value s1.settings REMIND_TIME_SETTING REMIND_TIME_DEFAULT)) }
  let s3 := setLockValue (CInt.qint32.convert s2.activateTime) s2
  setRemindValue (CInt.qint32.convert s3.remindTime) s3

/-- The method `MainWindow::writeSettings`. -/
def writeSettings (ty : CInt) (s : MainWindow) : MainWindow :=
  let s1 := { s with activateTime := ty.convert s.lockScreenSpinBox.value }
  let s2 := { s1 with remindTime := ty.convert s1.remindSpinBox.value }
  let s3 := { s2 with settings := QSettings.setValue s2.settings LOCK_TIME_SETTING s2.activateTime }
  { s3 with settings := QSettings.setValue s3.settings REMIND_TIME_SETTING s3.remindTime }

/-- The call `hide()`. -/
def hide (s : MainWindow) : MainWindow :=
  ({ s with visible := false }).emit .hideWindow

/-- The call `show()`. -/
def showWindow (s : MainWindow) : MainWindow :=
  ({ s with visible := true }).emit .showWindow

/-- The call `qApp->quit()`. -/
def quit (s : MainWindow) : MainWindow :=
  ({ s with quitRequested := true }).emit .quit

/-- Buttons of the dialog button box. -/
inductive Button where
  | RestoreDefaults | Apply | Other
  deriving DecidableEq, Repr

/-- The method `MainWindow::buttonBoxClicked`. -/
def buttonBoxClicked (ty : CInt) (button : Button) (s : MainWindow) : MainWindow :=
  match button with
  | .RestoreDefaults => readSettings ty s
  | .Apply => resetTimers ty (hide (writeSettings ty s))
  | .Other => s

/-- The method `MainWindow::closeEvent`. -/
def closeEvent (s : MainWindow) : MainWindow :=
  hide s

/-- The method `MainWindow::systemTrayActivated`; `trigger` says whether the reason
is `QSystemTrayIcon::Trigger`. -/
def systemTrayActivated (trigger : Bool) (s : MainWindow) : MainWindow :=
  if trigger then showWindow s else s

/-- The method `MainWindow::initSystemTrayIcon`; `trayAvailable` is the result of
`isSystemTrayAvailable() && supportsMessages()`. -/
def initSystemTrayIcon (trayAvailable : Bool) (s : MainWindow) : MainWindow :=
  let s1 := if trayAvailable then s else quit (s.emit (.critical trayUnsupportedText))
  setActiveStatusIcon false s1

/-- The constructor `MainWindow::MainWindow`: members initialised, `setupUi`,
`readSettings`, then the signal connections, then `initSystemTrayIcon`. -/
def MainWindow.construct (ty : CInt) (ui : Ui) (store : QSettings) (trayAvailable : Bool) :
    MainWindow :=
  let s0 : MainWindow :=
    { lockScreenSpinBox := ui.lockScreenSpinBox
      remindSpinBox := ui.remindSpinBox
      connected := false
      activateTimer := QTimer.create
      remindTimer := QTimer.create
      activateTime := 0
      remindTime := 0
      settings := store
      activeIcon := false
      visible := false
      quitRequested := false
      effects := [] }
  let s1 := readSettings ty s0
  let s2 := { s1 with connected := true }
  initSystemTrayIcon trayAvailable s2

/-! ## Events -/

/-- What the event loop can deliver to the controller. -/
inductive Event where
  /-- The user sets the lock-delay field. -/
  | editLock (v : Int)
  /-- The user sets the remind field. -/
  | editRemind (v : Int)
  | click (button : Button)
  | close
  | trayReset
  | trayStop
  | traySettings
  | trayExit
  | trayActivated (trigger : Bool)
  /-- Time passes without a timer firing. -/
  | elapse (ms : Nat)
  | remindTimeout
  | activateTimeout (execute : String → Int) (answer : StandardButton)

/-- One event. A timer only fires while it is active. Events are not filtered by
`quitRequested`: `qApp->quit()` only asks the event loop to end, and slots can still
run until it has. -/
def step (ty : CInt) (s : MainWindow) (e : Event) : MainWindow :=
  match e with
  | .editLock v => setLockValue v s
  | .editRemind v => setRemindValue v s
  | .click b => buttonBoxClicked ty b s
  | .close => closeEvent s
  | .trayReset => resetTimers ty s
  | .trayStop => stopTimers s
  | .traySettings => showWindow s
  | .trayExit => quit s
  | .trayActivated t => systemTrayActivated t s
  | .elapse ms =>
    { s with activateTimer := s.activateTimer.advance ms,
             remindTimer := s.remindTimer.advance ms }
  | .remindTimeout =>
    if s.remindTimer.isActive then remind { s with remindTimer := s.remindTimer.fire }
    else s
  | .activateTimeout execute answer =>
    if s.activateTimer.isActive then
      activate ty execute answer { s with activateTimer := s.activateTimer.fire }
    else s

/-- A sequence of events. -/
def run (ty : CInt) (s : MainWindow) (es : List Event) : MainWindow :=
  es.foldl (step ty) s

/-! ## Timed runs -/

/-- The timer whose `timeout()` the event loop delivers next and the time until then:
the active timer with the least remaining time; `remindFirst` decides a tie. -/
def nextTimeout (remindFirst : Bool) (s : MainWindow) : Option (TimerId × Int) :=
  match s.activateTimer.isActive, s.remindTimer.isActive with
  | false, false => none
  | true, false => some (.activateTimer, s.activateTimer.remaining)
  | false, true => some (.remindTimer, s.remindTimer.remaining)
  | true, true =>
    if s.remindTimer.remaining < s.activateTimer.remaining ∨
        (remindFirst = true ∧ s.remindTimer.remaining = s.activateTimer.remaining) then
      some (.remindTimer, s.remindTimer.remaining)
    else some (.activateTimer, s.activateTimer.remaining)

/-- One lock cycle with no user event: from state `s` at time `now` (ms) the event loop
delivers the timeouts in time order until the lock timer is due. Result: the times at
which `remind` ran, the time at which the lock timer fires (`none`: no timer is active,
or the step budget is used up), and the state just before the lock timer fires. -/
def lockCycle (ty : CInt) (remindFirst : Bool) :
    Nat → Int → MainWindow → List Int × Option Int × MainWindow
  | 0, _, s => ([], none, s)
  | fuel + 1, now, s =>
    match nextTimeout remindFirst s with
    | none => ([], none, s)
    | some (.activateTimer, dt) => ([], some (now + dt), step ty s (.elapse dt.toNat))
    | some (.remindTimer, dt) =>
      let r := lockCycle ty remindFirst fuel (now + dt)
        (step ty (step ty s (.elapse dt.toNat)) .remindTimeout)
      ((now + dt) :: r.1, r.2.1, r.2.2)

/-- The Qt defaults of a spin box: range 0..99, value 0. -/
def QSpinBox.qtDefault : QSpinBox :=
  { minimum := 0, maximum := 99, value := 0 }

/-- A form whose spin boxes keep the Qt defaults. -/
def Ui.qtDefault : Ui :=
  { lockScreenSpinBox := QSpinBox.qtDefault, remindSpinBox := QSpinBox.qtDefault }

/-- A form laid out for the defaults 20 and 1: lock field 1..99 showing 20, remind
field 0..19 showing 1, so that the remind maximum is below the default lock delay. -/
def Ui.fittedToDefaults : Ui :=
  { lockScreenSpinBox := { minimum := 1, maximum := 99, value := 20 },
    remindSpinBox := { minimum := 0, maximum := 19, value := 1 } }

/-! ## Predicates used in the statements -/

/-- The timer has just been started with the given delay: active, nothing elapsed. -/
def QTimer.freshlyStarted (t : QTimer) (msec : Int) : Prop :=
  t.isActive = true ∧ t.interval = msec ∧ t.elapsed = 0

/-- The value `readSettings` loads into `activateTime` from a store. -/
def loadedLock (ty : CInt) (st : QSettings) : Int :=
  ty.convert (toUInt (QSettings.value st LOCK_TIME_SETTING LOCK_TIME_DEFAULT))

/-- The value `readSettings` loads into `remindTime` from a store. -/
def loadedRemind (ty : CInt) (st : QSettings) : Int :=
  ty.convert (toUInt (QSettings.value st REMIND_TIME_SETTING REMIND_TIME_DEFAULT))

/-- The clamp is in force: the slot is connected, the lock field ranges over positive
values of the member type, the remind field over non-negative values below the lock
value shown, and both the members and the persisted pair satisfy remind < lock. -/
structure ClampInForce (ty : CInt) (s : MainWindow) : Prop where
  conn : s.connected = true
  lockLo : 1 ≤ s.lockScreenSpinBox.minimum
  lockVal : s.lockScreenSpinBox.minimum ≤ s.lockScreenSpinBox.value ∧
    s.lockScreenSpinBox.value ≤ s.lockScreenSpinBox.maximum
  lockHi : s.lockScreenSpinBox.maximum ≤ ty.maxVal ∧
    s.lockScreenSpinBox.maximum ≤ CInt.qint32.maxVal
  remLo : 0 ≤ s.remindSpinBox.minimum
  remVal : s.remindSpinBox.minimum ≤ s.remindSpinBox.value ∧
    s.remindSpinBox.value ≤ s.remindSpinBox.maximum
  remHi : s.remindSpinBox.maximum < s.lockScreenSpinBox.value
  conf : s.remindTime < s.activateTime
  stored : loadedRemind ty s.settings < loadedLock ty s.settings

theorem convert_of_holds (t : CInt) (v : Int) (h : t.holds v) : t.convert v = v := by
  cases t <;>
    simp [CInt.holds, CInt.minVal, CInt.maxVal, CInt.convert, CInt.bits, CInt.isSigned] at * <;>
    omega

theorem convert_holds (t : CInt) (v : Int) : t.holds (t.convert v) := by
  cases t <;>
    simp [CInt.holds, CInt.minVal, CInt.maxVal, CInt.convert, CInt.bits, CInt.isSigned] <;>
    omega

/-- For every member type, the lock delay is the exact product whenever that product
fits an `int`. -/
theorem lockDelay_exact (ty : CInt) (a : Int) (h0 : CInt.qint32.minVal ≤ a * MILLISECONDS_PER_MIN)
    (h : a * MILLISECONDS_PER_MIN ≤ CInt.qint32.maxVal) :
    lockDelay ty a = a * MILLISECONDS_PER_MIN := by
  cases ty <;>
    simp [lockDelay, arithType, CInt.common, CInt.promote, CInt.maxVal, CInt.minVal,
      CInt.convert, CInt.bits, CInt.isSigned, MILLISECONDS_PER_MIN] at * <;>
    omega

/-- For every member type, the remind delay handed to `QTimer::start` is the exact
product whenever that product fits an `int`. -/
theorem remindDelay_exact (ty : CInt) (a r : Int)
    (h0 : CInt.qint32.minVal ≤ (a - r) * MILLISECONDS_PER_MIN)
    (h : (a - r) * MILLISECONDS_PER_MIN ≤ CInt.qint32.maxVal) :
    remindDelay ty a r = (a - r) * MILLISECONDS_PER_MIN := by
  cases ty <;>
    simp [remindDelay, arithType, CInt.common, CInt.promote, CInt.maxVal, CInt.minVal,
      CInt.convert, CInt.bits, CInt.isSigned, MILLISECONDS_PER_MIN] at * <;>
    omega

/-- Values of an 8-bit type lie within -128..255. -/
theorem byte_range (ty : CInt) (v : Int) (hty : ty.bits ≤ 8) (h : ty.holds v) :
    -128 ≤ v ∧ v ≤ 255 := by
  cases ty <;>
    simp [CInt.holds, CInt.minVal, CInt.maxVal, CInt.bits, CInt.isSigned] at * <;>
    omega

/-- With 8-bit members no step of the delay computations overflows. -/
theorem byte_delaysExact (ty : CInt) (a r : Int) (hty : ty.bits ≤ 8)
    (ha : ty.holds a) (hr : ty.holds r) : delaysExact ty a r := by
  have h1 := byte_range ty a hty ha
  have h2 := byte_range ty r hty hr
  cases ty <;>
    simp [delaysExact, arithType, CInt.common, CInt.promote, CInt.holds, CInt.minVal,
      CInt.maxVal, CInt.bits, CInt.isSigned, MILLISECONDS_PER_MIN] at * <;>
    omega

/-- With 32-bit unsigned members the product wraps for a large lock delay. -/
theorem lockDelay_quint32_wraps : lockDelay CInt.quint32 40000 = -1894967296 := by
  decide

/-! ## resetTimers and stopTimers -/

theorem resetTimers_activateTimer (ty : CInt) (s : MainWindow) :
    (resetTimers ty s).activateTimer = s.activateTimer.start (lockDelay ty s.activateTime) := by
  simp [resetTimers, setActiveStatusIcon, MainWindow.emit]

theorem resetTimers_remindTimer (ty : CInt) (s : MainWindow) :
    (resetTimers ty s).remindTimer =
      s.remindTimer.start (remindDelay ty s.activateTime s.remindTime) := by
  simp [resetTimers, setActiveStatusIcon, MainWindow.emit]

theorem resetTimers_activeIcon (ty : CInt) (s : MainWindow) :
    (resetTimers ty s).activeIcon = true := by
  simp [resetTimers, setActiveStatusIcon, MainWindow.emit]

theorem resetTimers_config (ty : CInt) (s : MainWindow) :
    (resetTimers ty s).activateTime = s.activateTime ∧
    (resetTimers ty s).remindTime = s.remindTime ∧
    (resetTimers ty s).quitRequested = s.quitRequested ∧
    (resetTimers ty s).settings = s.settings ∧
    (resetTimers ty s).lockScreenSpinBox = s.lockScreenSpinBox ∧
    (resetTimers ty s).remindSpinBox = s.remindSpinBox ∧
    (resetTimers ty s).connected = s.connected := by
  simp [resetTimers, setActiveStatusIcon, MainWindow.emit]

theorem resetTimers_effects (ty : CInt) (s : MainWindow) :
    (resetTimers ty s).effects = s.effects ++
      [Effect.timerStart TimerId.activateTimer (lockDelay ty s.activateTime),
       Effect.timerStart TimerId.remindTimer (remindDelay ty s.activateTime s.remindTime),
       Effect.setIcon true] := by
  simp [resetTimers, setActiveStatusIcon, MainWindow.emit]

theorem stopTimers_timers (s : MainWindow) :
    (stopTimers s).activateTimer = s.activateTimer.stop ∧
    (stopTimers s).remindTimer = s.remindTimer.stop ∧
    (stopTimers s).activeIcon = false := by
  simp [stopTimers, setActiveStatusIcon, MainWindow.emit]

theorem stopTimers_config (s : MainWindow) :
    (stopTimers s).activateTime = s.activateTime ∧
    (stopTimers s).remindTime = s.remindTime ∧
    (stopTimers s).quitRequested = s.quitRequested ∧
    (stopTimers s).settings = s.settings ∧
    (stopTimers s).lockScreenSpinBox = s.lockScreenSpinBox ∧
    (stopTimers s).remindSpinBox = s.remindSpinBox ∧
    (stopTimers s).connected = s.connected := by
  simp [stopTimers, setActiveStatusIcon, MainWindow.emit]

theorem stopTimers_effects (s : MainWindow) :
    (stopTimers s).effects = s.effects ++
      [Effect.timerStop TimerId.activateTimer, Effect.timerStop TimerId.remindTimer,
       Effect.setIcon false] := by
  simp [stopTimers, setActiveStatusIcon, MainWindow.emit]

/-- C1: for every configuration with 0 < remindTime < activateTime, with members of an
8-bit type (the type of the defaults) or, for a wider member type, a lock delay whose
millisecond count fits an `int`, resetTimers, called in any state or right after
stopTimers, starts the lock timer with delay activateTime * 60000 ms and the remind
timer with delay (activateTime - remindTime) * 60000 ms, both with nothing elapsed,
and shows the active icon. -/
theorem resetTimers_starts_both_timers (ty : CInt) (s : MainWindow)
    (hfit : ty.bits ≤ 8 ∨ s.activateTime * 60000 ≤ CInt.qint32.maxVal)
    (hval : ty.holds s.activateTime)
    (hpos : 0 < s.remindTime) (hlt : s.remindTime < s.activateTime) :
    ((resetTimers ty s).activateTimer.freshlyStarted (s.activateTime * 60000) ∧
      (resetTimers ty s).remindTimer.freshlyStarted ((s.activateTime - s.remindTime) * 60000) ∧
      (resetTimers ty s).activeIcon = true) ∧
    ((resetTimers ty (stopTimers s)).activateTimer.freshlyStarted (s.activateTime * 60000) ∧
      (resetTimers ty (stopTimers s)).remindTimer.freshlyStarted
        ((s.activateTime - s.remindTime) * 60000) ∧
      (resetTimers ty (stopTimers s)).activeIcon = true) := by
  have hle : s.activateTime * 60000 ≤ 2147483647 := by
    rcases hfit with h | h
    · have := byte_range ty s.activateTime h hval; omega
    · simpa [CInt.maxVal, CInt.bits, CInt.isSigned] using h
  have h1 : lockDelay ty s.activateTime = s.activateTime * 60000 := by
    apply lockDelay_exact <;> simp [MILLISECONDS_PER_MIN, CInt.maxVal, CInt.minVal, CInt.bits,
      CInt.isSigned] <;> omega
  have h2 : remindDelay ty s.activateTime s.remindTime =
      (s.activateTime - s.remindTime) * 60000 := by
    apply remindDelay_exact <;> simp [MILLISECONDS_PER_MIN, CInt.maxVal, CInt.minVal,
      CInt.bits, CInt.isSigned] <;> omega
  have hc := stopTimers_config s
  refine ⟨⟨?_, ?_, resetTimers_activeIcon ty s⟩, ⟨?_, ?_, resetTimers_activeIcon ty _⟩⟩
  · rw [resetTimers_activateTimer, h1]; simp [QTimer.freshlyStarted, QTimer.start]
  · rw [resetTimers_remindTimer, h2]; simp [QTimer.freshlyStarted, QTimer.start]
  · rw [resetTimers_activateTimer, hc.1, h1]; simp [QTimer.freshlyStarted, QTimer.start]
  · rw [resetTimers_remindTimer, hc.1, hc.2.1, h2]; simp [QTimer.freshlyStarted, QTimer.start]

/-- Witness of C1: members 20 and 1 in a freshly constructed controller. -/
theorem resetTimers_starts_both_timers_witness :
    ((resetTimers CInt.quint8 (MainWindow.construct CInt.quint8 Ui.qtDefault [] true)
        ).activateTimer.freshlyStarted 1200000 ∧
      (resetTimers CInt.quint8 (MainWindow.construct CInt.quint8 Ui.qtDefault [] true)
        ).remindTimer.freshlyStarted 1140000) := by
  have h := resetTimers_starts_both_timers CInt.quint8
    (MainWindow.construct CInt.quint8 Ui.qtDefault [] true) (Or.inl (by decide)) (by decide)
    (by decide) (by decide)
  exact ⟨h.1.1, h.1.2.1⟩

/-- C10: for members of an 8-bit type and every configuration with
remindTime >= activateTime, the remind delay resetTimers computes is
(activateTime - remindTime) * 60000, which is not positive (zero exactly when the two
are equal, negative exactly when remindTime is larger), the lock delay is
activateTime * 60000, and no step of either computation overflows. -/
theorem resetTimers_remind_not_below_lock (ty : CInt) (s : MainWindow)
    (hty : ty.bits ≤ 8) (hl : ty.holds s.activateTime) (hr : ty.holds s.remindTime)
    (hge : s.activateTime ≤ s.remindTime) :
    (resetTimers ty s).remindTimer.interval = (s.activateTime - s.remindTime) * 60000 ∧
    (resetTimers ty s).remindTimer.interval ≤ 0 ∧
    ((resetTimers ty s).remindTimer.interval = 0 ↔ s.remindTime = s.activateTime) ∧
    ((resetTimers ty s).remindTimer.interval < 0 ↔ s.activateTime < s.remindTime) ∧
    (resetTimers ty s).activateTimer.interval = s.activateTime * 60000 ∧
    delaysExact ty s.activateTime s.remindTime := by
  have hb := byte_range ty s.activateTime hty hl
  have hb2 := byte_range ty s.remindTime hty hr
  have h1 : lockDelay ty s.activateTime = s.activateTime * 60000 := by
    apply lockDelay_exact <;> simp [MILLISECONDS_PER_MIN, CInt.maxVal, CInt.minVal, CInt.bits,
      CInt.isSigned] <;> omega
  have h2 : remindDelay ty s.activateTime s.remindTime =
      (s.activateTime - s.remindTime) * 60000 := by
    apply remindDelay_exact <;> simp [MILLISECONDS_PER_MIN, CInt.maxVal, CInt.minVal,
      CInt.bits, CInt.isSigned] <;> omega
  rw [resetTimers_activateTimer, resetTimers_remindTimer, h1, h2]
  simp only [QTimer.start]
  refine ⟨trivial, by omega, by omega, by omega, trivial, byte_delaysExact ty _ _ hty hl hr⟩

/-- Witness of C10: the persisted pair lock_time = 5, remind_time = 10. -/
theorem resetTimers_remind_not_below_lock_witness :
    (resetTimers CInt.quint8 (MainWindow.construct CInt.quint8 Ui.qtDefault
      [("lock_time", 5), ("remind_time", 10)] true)).remindTimer.interval = (5 - 10) * 60000 := by
  have h := resetTimers_remind_not_below_lock CInt.quint8
    (MainWindow.construct CInt.quint8 Ui.qtDefault [("lock_time", 5), ("remind_time", 10)] true)
    (by decide) (by decide) (by decide) (by decide)
  exact h.1

/-! ## The remind field clamp -/

theorem setMaximum_maximum (sb : QSpinBox) (m : Int) : (sb.setMaximum m).maximum = m := by
  simp only [QSpinBox.setMaximum, QSpinBox.setRange, QSpinBox.setValue]
  split_ifs <;> omega

theorem setMaximum_minimum (sb : QSpinBox) (m : Int) :
    (sb.setMaximum m).minimum = if sb.minimum < m then sb.minimum else m := by
  simp [QSpinBox.setMaximum, QSpinBox.setRange, QSpinBox.setValue]

theorem setMaximum_value_le (sb : QSpinBox) (m : Int) : (sb.setMaximum m).value ≤ m := by
  simp only [QSpinBox.setMaximum, QSpinBox.setRange, QSpinBox.setValue, QSpinBox.bound]
  split_ifs <;> omega

theorem setMaximum_minimum_le_value (sb : QSpinBox) (m : Int) :
    (sb.setMaximum m).minimum ≤ (sb.setMaximum m).value := by
  simp only [QSpinBox.setMaximum, QSpinBox.setRange, QSpinBox.setValue, QSpinBox.bound]
  split_ifs <;> omega

theorem setMaximum_idem (sb : QSpinBox) (m : Int) :
    (sb.setMaximum m).setMaximum m = sb.setMaximum m := by
  have h1 := setMaximum_maximum sb m
  have h2 := setMaximum_value_le sb m
  have h3 := setMaximum_minimum_le_value sb m
  generalize sb.setMaximum m = t at h1 h2 h3
  obtain ⟨lo, hi, v⟩ := t
  simp only at h1 h2 h3
  subst h1
  simp only [QSpinBox.setMaximum, QSpinBox.setRange, QSpinBox.setValue, QSpinBox.bound,
    QSpinBox.mk.injEq]
  refine ⟨?_, ?_, ?_⟩ <;> split_ifs <;> omega

/-- C3: for every `int` lock-delay value L above INT_MIN (where `--value` is defined)
and every prior remind field (any value, minimum and maximum),
changeRemindBeforeMaxValue(L) leaves the remind field with maximum L - 1 and a value
of at most L - 1, and applying it a second time with the same L changes nothing. -/
theorem changeRemindBeforeMaxValue_clamps (L : Int) (s : MainWindow)
    (hlo : CInt.qint32.minVal < L) (hhi : L ≤ CInt.qint32.maxVal) :
    (changeRemindBeforeMaxValue L s).remindSpinBox.maximum = L - 1 ∧
    (changeRemindBeforeMaxValue L s).remindSpinBox.value ≤ L - 1 ∧
    changeRemindBeforeMaxValue L (changeRemindBeforeMaxValue L s) =
      changeRemindBeforeMaxValue L s := by
  have hc : CInt.qint32.convert (L - 1) = L - 1 := by
    apply convert_of_holds
    simp [CInt.holds, CInt.minVal, CInt.maxVal, CInt.bits, CInt.isSigned] at *
    omega
  simp only [changeRemindBeforeMaxValue, hc]
  exact ⟨setMaximum_maximum _ _, setMaximum_value_le _ _, by rw [setMaximum_idem]⟩

/-- Witness of C3: lowering the lock delay to 10 while the remind field shows 15. -/
theorem changeRemindBeforeMaxValue_clamps_witness :
    (changeRemindBeforeMaxValue 10
      (setRemindValue 15 (MainWindow.construct CInt.quint8 Ui.qtDefault [] true))
      ).remindSpinBox = { minimum := 0, maximum := 9, value := 9 } ∧
    (changeRemindBeforeMaxValue 10
      (setRemindValue 15 (MainWindow.construct CInt.quint8 Ui.qtDefault [] true))
      ).remindSpinBox.maximum = 10 - 1 :=
  ⟨by decide,
   (changeRemindBeforeMaxValue_clamps 10
      (setRemindValue 15 (MainWindow.construct CInt.quint8 Ui.qtDefault [] true))
      (by decide) (by decide)).1⟩

/-! ## lockScreen -/

theorem lockScreenLoop_fail (execute : String → Int) (cs : List String)
    (h : ∀ c ∈ cs, execute c ≠ 0) :
    lockScreenLoop execute cs = (QProcess.CrashExit, cs) := by
  induction cs with
  | nil => rfl
  | cons c cs ih =>
    have hc : execute c ≠ 0 := h c (List.mem_cons_self _ _)
    have ih2 := ih (fun d hd => h d (List.mem_cons_of_mem _ hd))
    simp [lockScreenLoop, QProcess.NormalExit, hc, ih2]

theorem lockScreenLoop_first (execute : String → Int) (cs : List String) (k : Nat)
    (hk : k < cs.length) (hbefore : ∀ c ∈ cs.take k, execute c ≠ 0)
    (hz : execute (cs.get ⟨k, hk⟩) = 0) :
    lockScreenLoop execute cs = (QProcess.NormalExit, cs.take (k + 1)) := by
  induction cs generalizing k with
  | nil => simp at hk
  | cons c cs ih =>
    cases k with
    | zero =>
      simp at hz
      simp [lockScreenLoop, QProcess.NormalExit, hz]
    | succ k =>
      have hc : execute c ≠ 0 := hbefore c (by simp)
      have hk2 : k < cs.length := by simpa using hk
      have ih2 := ih k hk2 (fun d hd => hbefore d (by simp [hd])) (by simpa using hz)
      simp [lockScreenLoop, QProcess.NormalExit, hc, ih2]

theorem lockScreenLoop_result (execute : String → Int) (cs : List String) :
    ((lockScreenLoop execute cs).1 = QProcess.NormalExit ↔ ∃ c ∈ cs, execute c = 0) ∧
    ((lockScreenLoop execute cs).1 = QProcess.CrashExit ↔ ∀ c ∈ cs, execute c ≠ 0) := by
  induction cs with
  | nil => simp [lockScreenLoop, QProcess.NormalExit, QProcess.CrashExit]
  | cons c cs ih =>
    by_cases hc : execute c = 0
    · simp [lockScreenLoop, QProcess.NormalExit, QProcess.CrashExit, hc]
    · simp only [QProcess.NormalExit, QProcess.CrashExit] at ih
      simp [lockScreenLoop, QProcess.NormalExit, QProcess.CrashExit, hc, ih]

theorem lockScreenLoop_ran (execute : String → Int) (cs : List String) :
    (lockScreenLoop execute cs).2 = cs.take (lockScreenLoop execute cs).2.length ∧
    (∀ c ∈ (lockScreenLoop execute cs).2.dropLast, execute c ≠ 0) := by
  induction cs with
  | nil => simp [lockScreenLoop]
  | cons c cs ih =>
    by_cases hc : execute c = 0
    · simp [lockScreenLoop, QProcess.NormalExit, hc]
    · simp only [lockScreenLoop, QProcess.NormalExit, hc, if_false, List.length_cons,
        List.take_succ_cons]
      refine ⟨by rw [← ih.1], ?_⟩
      intro d hd
      cases hl : (lockScreenLoop execute cs).2 with
      | nil => simp [hl] at hd
      | cons x xs =>
        rw [hl, List.dropLast_cons₂] at hd
        rcases List.mem_cons.1 hd with h | h
        · rw [h]; exact hc
        · exact ih.2 d (by rw [hl]; exact h)

/-- C4: whatever the five commands return, lockScreen runs an initial segment of the
fixed list in list order, every command run before the last one run returned non-zero,
it stops at the first command returning zero (returning NormalExit with no later
command run), it returns NormalExit exactly when some command of the list returns
zero and CrashExit exactly when all five return non-zero (all five having been run),
and no command is run twice. -/
theorem lockScreen_first_success (execute : String → Int) :
    lockScreenCommands =
      [ "gnome-screensaver-command --lock", "xscreensaver-command --lock",
        "qdbus org.freedesktop.ScreenSaver /ScreenSaver Lock",
        "qdbus org.gnome.ScreenSaver /ScreenSaver Lock", "xlock" ] ∧
    (lockScreen execute).2 = lockScreenCommands.take (lockScreen execute).2.length ∧
    (∀ c ∈ (lockScreen execute).2.dropLast, execute c ≠ 0) ∧
    (∀ (k : Nat) (hk : k < lockScreenCommands.length),
      (∀ c ∈ lockScreenCommands.take k, execute c ≠ 0) →
      execute (lockScreenCommands.get ⟨k, hk⟩) = 0 →
      lockScreen execute = (QProcess.NormalExit, lockScreenCommands.take (k + 1))) ∧
    ((∀ c ∈ lockScreenCommands, execute c ≠ 0) →
      lockScreen execute = (QProcess.CrashExit, lockScreenCommands)) ∧
    ((lockScreen execute).1 = QProcess.NormalExit ↔ ∃ c ∈ lockScreenCommands, execute c = 0) ∧
    ((lockScreen execute).1 = QProcess.CrashExit ↔ ∀ c ∈ lockScreenCommands, execute c ≠ 0) ∧
    (lockScreen execute).2.Nodup := by
  refine ⟨rfl, (lockScreenLoop_ran execute _).1, (lockScreenLoop_ran execute _).2, ?_, ?_,
    (lockScreenLoop_result execute _).1, (lockScreenLoop_result execute _).2, ?_⟩
  · intro k hk hb hz
    exact lockScreenLoop_first execute _ k hk hb hz
  · intro h
    exact lockScreenLoop_fail execute _ h
  · have h := (lockScreenLoop_ran execute lockScreenCommands).1
    unfold lockScreen
    rw [h]
    exact List.Nodup.sublist (List.take_sublist _ _) (by decide)

/-! ## activate -/

theorem activate_fail_eq (ty : CInt) (execute : String → Int) (answer : StandardButton)
    (s : MainWindow) (hfail : ∀ c ∈ lockScreenCommands, execute c ≠ 0) :
    activate ty execute answer s =
      { stopTimers s with
        quitRequested := true
        effects := (stopTimers s).effects ++ lockScreenCommands.map Effect.execute ++
          [Effect.critical lockUnavailableText, Effect.quit] } := by
  have h : lockScreen execute = (QProcess.CrashExit, lockScreenCommands) :=
    lockScreenLoop_fail execute _ hfail
  simp [activate, h, QProcess.CrashExit, QProcess.NormalExit, MainWindow.emit]

theorem activate_ok_eq (ty : CInt) (execute : String → Int) (answer : StandardButton)
    (s : MainWindow) (hok : ∃ c ∈ lockScreenCommands, execute c = 0) :
    activate ty execute answer s =
      if answer = StandardButton.Yes then
        resetTimers ty { stopTimers s with
          effects := (stopTimers s).effects ++ (lockScreen execute).2.map Effect.execute ++
            [Effect.question "Ready to continue?"] }
      else
        { stopTimers s with
          effects := (stopTimers s).effects ++ (lockScreen execute).2.map Effect.execute ++
            [Effect.question "Ready to continue?"] } := by
  have h : (lockScreen execute).1 = QProcess.NormalExit :=
    (lockScreenLoop_result execute _).1.2 hok
  simp [activate, h, MainWindow.emit]

/-- C5: when activate runs and every lock command fails, the fatal dialog is shown and
termination is requested; afterwards neither timer is active and the icon is inactive,
and nothing but the two timer stops, the icon change, the five commands, the dialog and
the quit request happens: no timer is started, whatever the prior state (and whatever
the user would have answered). -/
theorem activate_all_commands_fail (ty : CInt) (execute : String → Int)
    (answer : StandardButton) (s : MainWindow)
    (hfail : ∀ c ∈ lockScreenCommands, execute c ≠ 0) :
    (activate ty execute answer s).quitRequested = true ∧
    (activate ty execute answer s).activateTimer.isActive = false ∧
    (activate ty execute answer s).remindTimer.isActive = false ∧
    (activate ty execute answer s).activeIcon = false ∧
    (activate ty execute answer s).effects = s.effects ++
      ([Effect.timerStop TimerId.activateTimer, Effect.timerStop TimerId.remindTimer,
        Effect.setIcon false] ++ lockScreenCommands.map Effect.execute ++
        [Effect.critical lockUnavailableText, Effect.quit]) ∧
    (∀ t d, Effect.timerStart t d ∉ ((activate ty execute answer s).effects.drop
      s.effects.length)) := by
  have he := activate_fail_eq ty execute answer s hfail
  have ht := stopTimers_timers s
  have hef : (activate ty execute answer s).effects = s.effects ++
      ([Effect.timerStop TimerId.activateTimer, Effect.timerStop TimerId.remindTimer,
        Effect.setIcon false] ++ lockScreenCommands.map Effect.execute ++
        [Effect.critical lockUnavailableText, Effect.quit]) := by
    rw [he]; simp [stopTimers_effects]
  refine ⟨by rw [he], ?_, ?_, ?_, hef, ?_⟩
  · rw [he]; simp [ht.1, QTimer.stop]
  · rw [he]; simp [ht.2.1, QTimer.stop]
  · rw [he]; simp [ht.2.2]
  · intro t d
    rw [hef, List.drop_left]
    simp [lockScreenCommands]

/-- Witness of C5: every command returns 127, the timers were running. -/
theorem activate_all_commands_fail_witness :
    (activate CInt.quint8 (fun _ => 127) StandardButton.Yes
      (resetTimers CInt.quint8 (MainWindow.construct CInt.quint8 Ui.qtDefault [] true))
      ).quitRequested = true :=
  (activate_all_commands_fail CInt.quint8 (fun _ => 127) StandardButton.Yes
    (resetTimers CInt.quint8 (MainWindow.construct CInt.quint8 Ui.qtDefault [] true))
    (by intro c _; show (127 : Int) ≠ 0; decide)).1

/-- C6: when activate runs and some lock command succeeds, the members, the persisted
store and the termination flag are unchanged and no quit is requested; if the answer
is Yes both timers are freshly started with the delays computed from the unchanged
members and the icon is active; on any other answer both timers are stopped and the
icon is inactive; so the timers run exactly when the answer is Yes. -/
theorem activate_lock_success (ty : CInt) (execute : String → Int)
    (answer : StandardButton) (s : MainWindow)
    (hok : ∃ c ∈ lockScreenCommands, execute c = 0) :
    (activate ty execute answer s).activateTime = s.activateTime ∧
    (activate ty execute answer s).remindTime = s.remindTime ∧
    (activate ty execute answer s).settings = s.settings ∧
    (activate ty execute answer s).quitRequested = s.quitRequested ∧
    Effect.quit ∉ (activate ty execute answer s).effects.drop s.effects.length ∧
    (answer = StandardButton.Yes →
      (activate ty execute answer s).activateTimer.freshlyStarted
        (lockDelay ty s.activateTime) ∧
      (activate ty execute answer s).remindTimer.freshlyStarted
        (remindDelay ty s.activateTime s.remindTime) ∧
      (activate ty execute answer s).activeIcon = true) ∧
    (answer ≠ StandardButton.Yes →
      (activate ty execute answer s).activateTimer.isActive = false ∧
      (activate ty execute answer s).remindTimer.isActive = false ∧
      (activate ty execute answer s).activeIcon = false) ∧
    (((activate ty execute answer s).activateTimer.isActive = true ∧
      (activate ty execute answer s).remindTimer.isActive = true) ↔
      answer = StandardButton.Yes) := by
  have he := activate_ok_eq ty execute answer s hok
  have ht := stopTimers_timers s
  have hc := stopTimers_config s
  have hse := stopTimers_effects s
  by_cases ha : answer = StandardButton.Yes
  · rw [if_pos ha] at he
    rw [he]
    have hr := resetTimers_config ty { stopTimers s with
          effects := (stopTimers s).effects ++ (lockScreen execute).2.map Effect.execute ++
            [Effect.question "Ready to continue?"] }
    simp only at hr
    refine ⟨by rw [hr.1, hc.1], by rw [hr.2.1, hc.2.1], by rw [hr.2.2.2.1, hc.2.2.2.1],
      by rw [hr.2.2.1, hc.2.2.1], ?_, ?_, ?_, ?_⟩
    · rw [resetTimers_effects]
      simp [hse]
    · intro _
      rw [resetTimers_activateTimer, resetTimers_remindTimer, resetTimers_activeIcon]
      simp [QTimer.freshlyStarted, QTimer.start, hc.1, hc.2.1]
    · intro h; exact absurd ha h
    · rw [resetTimers_activateTimer, resetTimers_remindTimer]
      simp [QTimer.start, ha]
  · rw [if_neg ha] at he
    rw [he]
    refine ⟨hc.1, hc.2.1, hc.2.2.2.1, hc.2.2.1, ?_, ?_, ?_, ?_⟩
    · simp [hse]
    · intro h; exact absurd h ha
    · intro _
      simp [ht.1, ht.2.1, ht.2.2, QTimer.stop]
    · simp [ht.1, ht.2.1, QTimer.stop, ha]

/-- Witness of C6: the first command succeeds and the user answers Yes. -/
theorem activate_lock_success_witness :
    (activate CInt.quint8 (fun _ => 0) StandardButton.Yes
      (resetTimers CInt.quint8 (MainWindow.construct CInt.quint8 Ui.qtDefault [] true))
      ).activateTime = 20 :=
  (activate_lock_success CInt.quint8 (fun _ => 0) StandardButton.Yes
    (resetTimers CInt.quint8 (MainWindow.construct CInt.quint8 Ui.qtDefault [] true))
    ⟨"xlock", by decide, rfl⟩).1

/-! ## readSettings and writeSettings -/

theorem readSettings_members (ty : CInt) (s : MainWindow) :
    (readSettings ty s).activateTime = loadedLock ty s.settings ∧
    (readSettings ty s).remindTime = loadedRemind ty s.settings ∧
    (readSettings ty s).settings = s.settings := by
  simp only [readSettings, setLockValue, setRemindValue, changeRemindBeforeMaxValue,
    loadedLock, loadedRemind]
  split_ifs <;> simp

theorem writeSettings_members (ty : CInt) (s : MainWindow) :
    (writeSettings ty s).activateTime = ty.convert s.lockScreenSpinBox.value ∧
    (writeSettings ty s).remindTime = ty.convert s.remindSpinBox.value ∧
    (writeSettings ty s).settings =
      (REMIND_TIME_SETTING, ty.convert s.remindSpinBox.value) ::
        (LOCK_TIME_SETTING, ty.convert s.lockScreenSpinBox.value) :: s.settings ∧
    (writeSettings ty s).lockScreenSpinBox = s.lockScreenSpinBox ∧
    (writeSettings ty s).remindSpinBox = s.remindSpinBox ∧
    (writeSettings ty s).connected = s.connected := by
  simp [writeSettings, QSettings.setValue]

theorem lookup_written (st : QSettings) (a r : Int) :
    List.lookup LOCK_TIME_SETTING ((REMIND_TIME_SETTING, r) :: (LOCK_TIME_SETTING, a) :: st)
      = some a ∧
    List.lookup REMIND_TIME_SETTING ((REMIND_TIME_SETTING, r) :: (LOCK_TIME_SETTING, a) :: st)
      = some r := by
  simp [LOCK_TIME_SETTING, REMIND_TIME_SETTING, List.lookup]

/-- Reading back a value of an unsigned member type of at most 32 bits gives it again. -/
theorem reload_unsigned (ty : CInt) (v : Int) (hu : ty.isSigned = false) (hb : ty.bits ≤ 32) :
    ty.convert (toUInt (ty.convert v)) = ty.convert v := by
  cases ty <;>
    simp [toUInt, CInt.convert, CInt.bits, CInt.isSigned] at * <;>
    omega

theorem construct_members (ty : CInt) (ui : Ui) (store : QSettings) (tray : Bool) :
    (MainWindow.construct ty ui store tray).activateTime = loadedLock ty store ∧
    (MainWindow.construct ty ui store tray).remindTime = loadedRemind ty store ∧
    (MainWindow.construct ty ui store tray).settings = store := by
  have h := readSettings_members ty
    { lockScreenSpinBox := ui.lockScreenSpinBox, remindSpinBox := ui.remindSpinBox,
      connected := false, activateTimer := QTimer.create, remindTimer := QTimer.create,
      activateTime := 0, remindTime := 0, settings := store, activeIcon := false,
      visible := false, quitRequested := false, effects := [] }
  simp only at h
  cases tray <;>
    simp [MainWindow.construct, initSystemTrayIcon, setActiveStatusIcon, MainWindow.emit,
      quit, h]

/-- C7: for an unsigned member type of at most 32 bits and every pair of form values,
writeSettings followed by readSettings (also the readSettings of a new controller
constructed on the same store) leaves activateTime and remindTime equal to the values
writeSettings saved, the keys lock_time and remind_time hold those values, and these
are the form values whenever the form values are values of the member type; when a
key is absent readSettings yields 20 resp. 1. -/
theorem writeSettings_readSettings_roundtrip (ty : CInt) (s : MainWindow)
    (hu : ty.isSigned = false) (hb : ty.bits ≤ 32) :
    (readSettings ty (writeSettings ty s)).activateTime = (writeSettings ty s).activateTime ∧
    (readSettings ty (writeSettings ty s)).remindTime = (writeSettings ty s).remindTime ∧
    (∀ ui tray,
      (MainWindow.construct ty ui (writeSettings ty s).settings tray).activateTime =
        (writeSettings ty s).activateTime ∧
      (MainWindow.construct ty ui (writeSettings ty s).settings tray).remindTime =
        (writeSettings ty s).remindTime) ∧
    (writeSettings ty s).settings.lookup LOCK_TIME_SETTING =
      some (writeSettings ty s).activateTime ∧
    (writeSettings ty s).settings.lookup REMIND_TIME_SETTING =
      some (writeSettings ty s).remindTime ∧
    (readSettings ty (writeSettings ty s)).settings = (writeSettings ty s).settings ∧
    (ty.holds s.lockScreenSpinBox.value →
      (writeSettings ty s).activateTime = s.lockScreenSpinBox.value) ∧
    (ty.holds s.remindSpinBox.value →
      (writeSettings ty s).remindTime = s.remindSpinBox.value) ∧
    (∀ s0 : MainWindow, s0.settings.lookup LOCK_TIME_SETTING = none →
      (readSettings ty s0).activateTime = 20) ∧
    (∀ s0 : MainWindow, s0.settings.lookup REMIND_TIME_SETTING = none →
      (readSettings ty s0).remindTime = 1) := by
  have hw := writeSettings_members ty s
  have hr := readSettings_members ty (writeSettings ty s)
  have hl := lookup_written s.settings (ty.convert s.lockScreenSpinBox.value)
    (ty.convert s.remindSpinBox.value)
  have h1 : loadedLock ty (writeSettings ty s).settings = ty.convert s.lockScreenSpinBox.value := by
    rw [hw.2.2.1]
    simp only [loadedLock, QSettings.value, hl.1]
    exact reload_unsigned ty _ hu hb
  have h2 : loadedRemind ty (writeSettings ty s).settings = ty.convert s.remindSpinBox.value := by
    rw [hw.2.2.1]
    simp only [loadedRemind, QSettings.value, hl.2]
    exact reload_unsigned ty _ hu hb
  refine ⟨by rw [hr.1, h1, hw.1], by rw [hr.2.1, h2, hw.2.1], ?_, ?_, ?_, hr.2.2, ?_, ?_, ?_, ?_⟩
  · intro ui tray
    have hc := construct_members ty ui (writeSettings ty s).settings tray
    exact ⟨by rw [hc.1, h1, hw.1], by rw [hc.2.1, h2, hw.2.1]⟩
  · rw [hw.2.2.1, hw.1]; exact hl.1
  · rw [hw.2.2.1, hw.2.1]; exact hl.2
  · intro h; rw [hw.1]; exact convert_of_holds ty _ h
  · intro h; rw [hw.2.1]; exact convert_of_holds ty _ h
  · intro s0 h0
    rw [(readSettings_members ty s0).1]
    simp only [loadedLock, QSettings.value, h0, LOCK_TIME_DEFAULT]
    cases ty <;> simp [toUInt, CInt.convert, CInt.bits, CInt.isSigned] at *
  · intro s0 h0
    rw [(readSettings_members ty s0).2.1]
    simp only [loadedRemind, QSettings.value, h0, REMIND_TIME_DEFAULT]
    cases ty <;> simp [toUInt, CInt.convert, CInt.bits, CInt.isSigned] at *

/-- Witness of C7: the form shows 30 and 5. -/
theorem writeSettings_readSettings_roundtrip_witness :
    (readSettings CInt.quint8 (writeSettings CInt.quint8
      (run CInt.quint8 (MainWindow.construct CInt.quint8 Ui.qtDefault [] true)
        [Event.editLock 30, Event.editRemind 5]))).activateTime =
    (writeSettings CInt.quint8
      (run CInt.quint8 (MainWindow.construct CInt.quint8 Ui.qtDefault [] true)
        [Event.editLock 30, Event.editRemind 5])).activateTime :=
  (writeSettings_readSettings_roundtrip CInt.quint8
    (run CInt.quint8 (MainWindow.construct CInt.quint8 Ui.qtDefault [] true)
      [Event.editLock 30, Event.editRemind 5]) (by decide) (by decide)).1

/-! ## The lifecycle invariant -/

theorem clamp_of_same (ty : CInt) (s t : MainWindow) (h : ClampInForce ty s)
    (h1 : t.lockScreenSpinBox = s.lockScreenSpinBox) (h2 : t.remindSpinBox = s.remindSpinBox)
    (h3 : t.connected = s.connected) (h4 : t.activateTime = s.activateTime)
    (h5 : t.remindTime = s.remindTime) (h6 : t.settings = s.settings) :
    ClampInForce ty t := by
  obtain ⟨a, b, c, d, e, f, g, i, j⟩ := h
  constructor <;> simp only [h1, h2, h3, h4, h5, h6] <;> assumption

theorem bound_mem (sb : QSpinBox) (v : Int) (h : sb.minimum ≤ sb.maximum) :
    sb.minimum ≤ sb.bound v ∧ sb.bound v ≤ sb.maximum := by
  simp only [QSpinBox.bound]
  split_ifs <;> omega

theorem clamp_setLockValue (ty : CInt) (v : Int) (s : MainWindow) (h : ClampInForce ty s) :
    ClampInForce ty (setLockValue v s) := by
  obtain ⟨a, b, c, d, e, f, g, i, j⟩ := h
  have hb := bound_mem s.lockScreenSpinBox v (by omega)
  simp only [setLockValue, QSpinBox.setValue, a, true_and]
  by_cases hch : s.lockScreenSpinBox.bound v ≠ s.lockScreenSpinBox.value
  · rw [if_pos hch]
    have hc : CInt.qint32.convert (s.lockScreenSpinBox.bound v - 1) =
        s.lockScreenSpinBox.bound v - 1 := by
      apply convert_of_holds
      simp [CInt.holds, CInt.minVal, CInt.maxVal, CInt.bits, CInt.isSigned] at *
      omega
    simp only [changeRemindBeforeMaxValue, hc]
    have m1 := setMaximum_maximum s.remindSpinBox (s.lockScreenSpinBox.bound v - 1)
    have m2 := setMaximum_minimum s.remindSpinBox (s.lockScreenSpinBox.bound v - 1)
    have m3 := setMaximum_value_le s.remindSpinBox (s.lockScreenSpinBox.bound v - 1)
    have m4 := setMaximum_minimum_le_value s.remindSpinBox (s.lockScreenSpinBox.bound v - 1)
    constructor <;> simp only <;> first
      | assumption
      | omega
  · rw [if_neg hch]
    have heq : s.lockScreenSpinBox.bound v = s.lockScreenSpinBox.value := not_not.1 hch
    constructor <;> simp only <;> first
      | assumption
      | omega

theorem clamp_setRemindValue (ty : CInt) (v : Int) (s : MainWindow) (h : ClampInForce ty s) :
    ClampInForce ty (setRemindValue v s) := by
  obtain ⟨a, b, c, d, e, f, g, i, j⟩ := h
  have hb := bound_mem s.remindSpinBox v (by omega)
  constructor <;> simp only [setRemindValue, QSpinBox.setValue] <;> assumption

theorem readSettings_eq (ty : CInt) (s : MainWindow) :
    readSettings ty s =
      setRemindValue (CInt.qint32.convert (loadedRemind ty s.settings))
        (setLockValue (CInt.qint32.convert (loadedLock ty s.settings))
          { s with activateTime := loadedLock ty s.settings,
                   remindTime := loadedRemind ty s.settings }) := by
  simp only [readSettings, setLockValue, setRemindValue, changeRemindBeforeMaxValue,
    loadedLock, loadedRemind]
  split_ifs <;> rfl

theorem clamp_readSettings (ty : CInt) (s : MainWindow) (h : ClampInForce ty s) :
    ClampInForce ty (readSettings ty s) := by
  rw [readSettings_eq]
  apply clamp_setRemindValue
  apply clamp_setLockValue
  obtain ⟨a, b, c, d, e, f, g, i, j⟩ := h
  constructor <;> simp only <;> assumption

theorem clamp_writeSettings (ty : CInt) (s : MainWindow) (h : ClampInForce ty s) :
    ClampInForce ty (writeSettings ty s) := by
  obtain ⟨a, b, c, d, e, f, g, i, j⟩ := h
  have hw := writeSettings_members ty s
  have hl := lookup_written s.settings (ty.convert s.lockScreenSpinBox.value)
    (ty.convert s.remindSpinBox.value)
  have c1 : ty.convert s.lockScreenSpinBox.value = s.lockScreenSpinBox.value := by
    apply convert_of_holds
    have := d.1
    cases ty <;>
      simp [CInt.holds, CInt.minVal, CInt.maxVal, CInt.bits, CInt.isSigned] at * <;> omega
  have c2 : ty.convert s.remindSpinBox.value = s.remindSpinBox.value := by
    apply convert_of_holds
    have := d.1
    cases ty <;>
      simp [CInt.holds, CInt.minVal, CInt.maxVal, CInt.bits, CInt.isSigned] at * <;> omega
  have u1 : ty.convert (toUInt s.lockScreenSpinBox.value) = s.lockScreenSpinBox.value := by
    have hu : toUInt s.lockScreenSpinBox.value = s.lockScreenSpinBox.value := by
      apply convert_of_holds
      simp [CInt.holds, CInt.minVal, CInt.maxVal, CInt.bits, CInt.isSigned] at *
      omega
    rw [hu, c1]
  have u2 : ty.convert (toUInt s.remindSpinBox.value) = s.remindSpinBox.value := by
    have hu : toUInt s.remindSpinBox.value = s.remindSpinBox.value := by
      apply convert_of_holds
      simp [CInt.holds, CInt.minVal, CInt.maxVal, CInt.bits, CInt.isSigned] at *
      omega
    rw [hu, c2]
  constructor
  · rw [hw.2.2.2.2.2]; exact a
  · rw [hw.2.2.2.1]; exact b
  · rw [hw.2.2.2.1]; exact c
  · rw [hw.2.2.2.1]; exact d
  · rw [hw.2.2.2.2.1]; exact e
  · rw [hw.2.2.2.2.1]; exact f
  · rw [hw.2.2.2.2.1, hw.2.2.2.1]; exact g
  · rw [hw.1, hw.2.1, c1, c2]; omega
  · rw [hw.2.2.1]
    simp only [loadedLock, loadedRemind, QSettings.value, hl.1, hl.2]
    rw [c1, c2, u1, u2]
    omega

theorem clamp_resetTimers (ty : CInt) (s : MainWindow) (h : ClampInForce ty s) :
    ClampInForce ty (resetTimers ty s) := by
  have hc := resetTimers_config ty s
  exact clamp_of_same ty s _ h hc.2.2.2.2.1 hc.2.2.2.2.2.1 hc.2.2.2.2.2.2 hc.1 hc.2.1
    hc.2.2.2.1

theorem clamp_stopTimers (ty : CInt) (s : MainWindow) (h : ClampInForce ty s) :
    ClampInForce ty (stopTimers s) := by
  have hc := stopTimers_config s
  exact clamp_of_same ty s _ h hc.2.2.2.2.1 hc.2.2.2.2.2.1 hc.2.2.2.2.2.2 hc.1 hc.2.1
    hc.2.2.2.1

theorem clamp_activate (ty : CInt) (execute : String → Int) (answer : StandardButton)
    (s : MainWindow) (h : ClampInForce ty s) : ClampInForce ty (activate ty execute answer s) := by
  have hs := clamp_stopTimers ty s h
  simp only [activate]
  split_ifs
  · exact clamp_resetTimers ty _ (clamp_of_same ty _ _ hs rfl rfl rfl rfl rfl rfl)
  · exact clamp_of_same ty _ _ hs rfl rfl rfl rfl rfl rfl
  · exact clamp_of_same ty _ _ hs rfl rfl rfl rfl rfl rfl

theorem clamp_step (ty : CInt) (s : MainWindow) (e : Event) (h : ClampInForce ty s) :
    ClampInForce ty (step ty s e) := by
  unfold step
  · cases e with
    | editLock v => exact clamp_setLockValue ty v s h
    | editRemind v => exact clamp_setRemindValue ty v s h
    | click b =>
      cases b with
      | RestoreDefaults => exact clamp_readSettings ty s h
      | Apply =>
        exact clamp_resetTimers ty _
          (clamp_of_same ty _ _ (clamp_writeSettings ty s h) rfl rfl rfl rfl rfl rfl)
      | Other => exact h
    | close => exact clamp_of_same ty _ _ h rfl rfl rfl rfl rfl rfl
    | trayReset => exact clamp_resetTimers ty s h
    | trayStop => exact clamp_stopTimers ty s h
    | traySettings => exact clamp_of_same ty _ _ h rfl rfl rfl rfl rfl rfl
    | trayExit => exact clamp_of_same ty _ _ h rfl rfl rfl rfl rfl rfl
    | trayActivated t =>
      cases t
      · exact h
      · exact clamp_of_same ty _ _ h rfl rfl rfl rfl rfl rfl
    | elapse ms => exact clamp_of_same ty _ _ h rfl rfl rfl rfl rfl rfl
    | remindTimeout =>
      simp only
      split_ifs with ha
      · exact clamp_of_same ty _ _ h rfl rfl rfl rfl rfl rfl
      · exact h
    | activateTimeout execute answer =>
      simp only
      split_ifs with ha
      · exact clamp_activate ty execute answer _
          (clamp_of_same ty _ _ h rfl rfl rfl rfl rfl rfl)
      · exact h

theorem clamp_run (ty : CInt) (es : List Event) (s : MainWindow) (h : ClampInForce ty s) :
    ClampInForce ty (run ty s es) := by
  induction es generalizing s with
  | nil => exact h
  | cons e es ih => exact ih (step ty s e) (clamp_step ty s e h)

theorem construct_form (ty : CInt) (ui : Ui) (store : QSettings) (tray : Bool) :
    (MainWindow.construct ty ui store tray).lockScreenSpinBox =
      ui.lockScreenSpinBox.setValue (CInt.qint32.convert (loadedLock ty store)) ∧
    (MainWindow.construct ty ui store tray).remindSpinBox =
      ui.remindSpinBox.setValue (CInt.qint32.convert (loadedRemind ty store)) ∧
    (MainWindow.construct ty ui store tray).connected = true := by
  cases tray <;>
    simp [MainWindow.construct, initSystemTrayIcon, setActiveStatusIcon, MainWindow.emit,
      quit, readSettings_eq, setLockValue, setRemindValue]

/-- The method readSettings takes the persisted pair as it is. With
lock_time = 5 and remind_time = 10 in the store the constructed controller has
remindTime = 10 and activateTime = 5, and tray Reset calls resetTimers on them. -/
theorem readSettings_keeps_invalid_pair :
    (run CInt.quint8 (MainWindow.construct CInt.quint8 Ui.qtDefault
        [("lock_time", 5), ("remind_time", 10)] true) [Event.trayReset]).activateTime = 5 ∧
    (run CInt.quint8 (MainWindow.construct CInt.quint8 Ui.qtDefault
        [("lock_time", 5), ("remind_time", 10)] true) [Event.trayReset]).remindTime = 10 ∧
    ¬ ((run CInt.quint8 (MainWindow.construct CInt.quint8 Ui.qtDefault
        [("lock_time", 5), ("remind_time", 10)] true) [Event.trayReset]).remindTime <
      (run CInt.quint8 (MainWindow.construct CInt.quint8 Ui.qtDefault
        [("lock_time", 5), ("remind_time", 10)] true) [Event.trayReset]).activateTime) := by
  decide

/-- The same holds for every member type and every form: the loaded pair is the
persisted one. -/
theorem construct_keeps_invalid_pair (ty : CInt) (ui : Ui) (tray : Bool) :
    (MainWindow.construct ty ui [("lock_time", 5), ("remind_time", 10)] tray).activateTime = 5 ∧
    (MainWindow.construct ty ui [("lock_time", 5), ("remind_time", 10)] tray).remindTime = 10 := by
  have h := construct_members ty ui [("lock_time", 5), ("remind_time", 10)] tray
  rw [h.1, h.2.1]
  cases ty <;> decide

/-- The slot is connected only after the constructor has called readSettings, so the
remind maximum of the form is not clamped at startup: with spin boxes left at the Qt
range 0..99 and an empty store, setting the remind field to 50 and clicking Apply
gives remindTime = 50 with activateTime = 20. -/
theorem apply_before_first_clamp :
    (run CInt.quint8 (MainWindow.construct CInt.quint8 Ui.qtDefault [] true)
      [Event.editRemind 50, Event.click Button.Apply]).activateTime = 20 ∧
    (run CInt.quint8 (MainWindow.construct CInt.quint8 Ui.qtDefault [] true)
      [Event.editRemind 50, Event.click Button.Apply]).remindTime = 50 := by
  decide

/-- Where the invariant remind < lock does hold: if the pair readSettings loads from
the store at startup satisfies remind < lock, the lock field of the form ranges over positive values of the member
type, and the remind field ranges over non-negative values with a maximum below the
lock value the form shows at startup, then in every state reached from the constructed
controller by any sequence of events the members, the persisted pair and the form
values all satisfy remind < lock. -/
theorem config_invariant (ty : CInt) (ui : Ui) (store : QSettings) (tray : Bool)
    (es : List Event)
    (hstore : loadedRemind ty store < loadedLock ty store)
    (hlock : 1 ≤ ui.lockScreenSpinBox.minimum ∧
      ui.lockScreenSpinBox.minimum ≤ ui.lockScreenSpinBox.maximum ∧
      ui.lockScreenSpinBox.maximum ≤ ty.maxVal ∧
      ui.lockScreenSpinBox.maximum ≤ CInt.qint32.maxVal)
    (hremind : 0 ≤ ui.remindSpinBox.minimum ∧
      ui.remindSpinBox.minimum ≤ ui.remindSpinBox.maximum ∧
      ui.remindSpinBox.maximum <
        (MainWindow.construct ty ui store tray).lockScreenSpinBox.value) :
    (run ty (MainWindow.construct ty ui store tray) es).remindTime <
      (run ty (MainWindow.construct ty ui store tray) es).activateTime ∧
    loadedRemind ty (run ty (MainWindow.construct ty ui store tray) es).settings <
      loadedLock ty (run ty (MainWindow.construct ty ui store tray) es).settings ∧
    (run ty (MainWindow.construct ty ui store tray) es).remindSpinBox.value <
      (run ty (MainWindow.construct ty ui store tray) es).lockScreenSpinBox.value := by
  have hm := construct_members ty ui store tray
  have hf := construct_form ty ui store tray
  have b1 := bound_mem ui.lockScreenSpinBox (CInt.qint32.convert (loadedLock ty store))
    hlock.2.1
  have b2 := bound_mem ui.remindSpinBox (CInt.qint32.convert (loadedRemind ty store))
    hremind.2.1
  have h3 := hremind.2.2
  rw [hf.1] at h3
  simp only [QSpinBox.setValue] at h3
  have h0 : ClampInForce ty (MainWindow.construct ty ui store tray) := by
    constructor
    · exact hf.2.2
    · rw [hf.1]; exact hlock.1
    · rw [hf.1]; exact b1
    · rw [hf.1]; exact ⟨hlock.2.2.1, hlock.2.2.2⟩
    · rw [hf.2.1]; exact hremind.1
    · rw [hf.2.1]; exact b2
    · rw [hf.2.1, hf.1]; exact h3
    · rw [hm.1, hm.2.1]; exact hstore
    · rw [hm.2.2]; exact hstore
  have h := clamp_run ty es _ h0
  exact ⟨h.conf, h.stored, by have := h.remVal; have := h.remHi; omega⟩

/-- An instance of the above: lock field 1..99, remind field 0..19, empty store, and the
user lowers the lock delay to 10 after setting the remind field to 15. -/
theorem config_invariant_witness :
    (run CInt.quint8
      (MainWindow.construct CInt.quint8
        { lockScreenSpinBox := { minimum := 1, maximum := 99, value := 20 },
          remindSpinBox := { minimum := 0, maximum := 19, value := 1 } } [] true)
      [Event.editRemind 15, Event.editLock 10, Event.click Button.Apply]).remindTime <
    (run CInt.quint8
      (MainWindow.construct CInt.quint8
        { lockScreenSpinBox := { minimum := 1, maximum := 99, value := 20 },
          remindSpinBox := { minimum := 0, maximum := 19, value := 1 } } [] true)
      [Event.editRemind 15, Event.editLock 10, Event.click Button.Apply]).activateTime :=
  (config_invariant CInt.quint8
    { lockScreenSpinBox := { minimum := 1, maximum := 99, value := 20 },
      remindSpinBox := { minimum := 0, maximum := 19, value := 1 } } [] true
    [Event.editRemind 15, Event.editLock 10, Event.click Button.Apply]
    (by decide) (by decide) (by decide)).1

/-! ## One lock cycle in time -/

/-- The scenario of the specification: members 20 and 1. The remind timer fires once,
19 minutes after the start, the notification reads "1 min. left", and the lock timer
fires at 20 minutes. -/
theorem lockCycle_20_1 (remindFirst : Bool) :
    (lockCycle CInt.quint8 remindFirst 10 0
      (resetTimers CInt.quint8 (MainWindow.construct CInt.quint8 Ui.qtDefault [] true))).1
      = [19 * 60000] ∧
    (lockCycle CInt.quint8 remindFirst 10 0
      (resetTimers CInt.quint8 (MainWindow.construct CInt.quint8 Ui.qtDefault [] true))).2.1
      = some (20 * 60000) ∧
    (lockCycle CInt.quint8 remindFirst 10 0
      (resetTimers CInt.quint8 (MainWindow.construct CInt.quint8 Ui.qtDefault [] true))
      ).2.2.effects.drop 4 = [Effect.showMessage "1 min. left"] := by
  cases remindFirst <;> decide

/-- C8 at lock_time = 20, remind_time = 15: the remind timer, created repeating, fires
5, 10 and 15 minutes after the start, each time before the lock timer fires at 20
minutes, and each notification reads "15 min. left"; 15 and 10 minutes are left at
the first two. -/
theorem lockCycle_20_15 :
    (lockCycle CInt.quint8 false 10 0
      (resetTimers CInt.quint8 (MainWindow.construct CInt.quint8 Ui.qtDefault
        [("lock_time", 20), ("remind_time", 15)] true))).1
      = [5 * 60000, 10 * 60000, 15 * 60000] ∧
    (lockCycle CInt.quint8 false 10 0
      (resetTimers CInt.quint8 (MainWindow.construct CInt.quint8 Ui.qtDefault
        [("lock_time", 20), ("remind_time", 15)] true))).2.1
      = some (20 * 60000) ∧
    (lockCycle CInt.quint8 false 10 0
      (resetTimers CInt.quint8 (MainWindow.construct CInt.quint8 Ui.qtDefault
        [("lock_time", 20), ("remind_time", 15)] true))).2.2.effects.drop 4
      = [Effect.showMessage "15 min. left", Effect.showMessage "15 min. left",
         Effect.showMessage "15 min. left"] ∧
    (MainWindow.construct CInt.quint8 Ui.qtDefault
        [("lock_time", 20), ("remind_time", 15)] true).remindTimer.isSingleShot = false := by
  decide

theorem lockCycle_remind (ty : CInt) (tie : Bool) (fuel : Nat) (now dt : Int) (s : MainWindow)
    (h : nextTimeout tie s = some (TimerId.remindTimer, dt)) :
    lockCycle ty tie (fuel + 1) now s =
      ((now + dt) :: (lockCycle ty tie fuel (now + dt)
          (step ty (step ty s (.elapse dt.toNat)) .remindTimeout)).1,
        (lockCycle ty tie fuel (now + dt)
          (step ty (step ty s (.elapse dt.toNat)) .remindTimeout)).2.1,
        (lockCycle ty tie fuel (now + dt)
          (step ty (step ty s (.elapse dt.toNat)) .remindTimeout)).2.2) := by
  simp [lockCycle, h]

theorem lockCycle_lock (ty : CInt) (tie : Bool) (fuel : Nat) (now dt : Int) (s : MainWindow)
    (h : nextTimeout tie s = some (TimerId.activateTimer, dt)) :
    lockCycle ty tie (fuel + 1) now s = ([], some (now + dt), step ty s (.elapse dt.toNat)) := by
  simp [lockCycle, h]

/-- Where C8 does hold: when remindTime is less than half of activateTime (and the
delay fits an `int`), the remind timer fires exactly once before the lock timer, at
activateTime - remindTime minutes, with the text for remindTime, and the lock timer
fires at activateTime minutes, whatever the tie rule and for any step budget of at
least 2. -/
theorem lockCycle_single_remind (ty : CInt) (remindFirst : Bool) (fuel : Nat) (s : MainWindow)
    (hfit : ty.bits ≤ 8 ∨ s.activateTime * 60000 ≤ CInt.qint32.maxVal)
    (hval : ty.holds s.activateTime)
    (hpos : 0 < s.remindTime) (hlt : 2 * s.remindTime < s.activateTime) :
    (lockCycle ty remindFirst (fuel + 2) 0 (resetTimers ty s)).1 =
      [(s.activateTime - s.remindTime) * 60000] ∧
    (lockCycle ty remindFirst (fuel + 2) 0 (resetTimers ty s)).2.1 =
      some (s.activateTime * 60000) ∧
    (lockCycle ty remindFirst (fuel + 2) 0 (resetTimers ty s)).2.2.effects =
      (resetTimers ty s).effects ++ [Effect.showMessage (remindText s.remindTime)] := by
  have hle : s.activateTime * 60000 ≤ 2147483647 := by
    rcases hfit with h | h
    · have := byte_range ty s.activateTime h hval; omega
    · simpa [CInt.maxVal, CInt.bits, CInt.isSigned] using h
  have h1 : lockDelay ty s.activateTime = s.activateTime * 60000 := by
    apply lockDelay_exact <;> simp [MILLISECONDS_PER_MIN, CInt.maxVal, CInt.minVal, CInt.bits,
      CInt.isSigned] <;> omega
  have h2 : remindDelay ty s.activateTime s.remindTime =
      (s.activateTime - s.remindTime) * 60000 := by
    apply remindDelay_exact <;> simp [MILLISECONDS_PER_MIN, CInt.maxVal, CInt.minVal,
      CInt.bits, CInt.isSigned] <;> omega
  have ha := resetTimers_activateTimer ty s
  have hr := resetTimers_remindTimer ty s
  have hc := resetTimers_config ty s
  rw [h1] at ha
  rw [h2] at hr
  generalize resetTimers ty s = s1 at ha hr hc ⊢
  generalize hD : (s.activateTime - s.remindTime) * 60000 = D at *
  generalize hL : s.activateTime * 60000 = L at *
  have hD0 : 0 < D := by omega
  have hDL : D < L := by omega
  have hDL2 : L - D < D := by omega
  have hnat : ((D.toNat : Nat) : Int) = D := Int.toNat_of_nonneg (le_of_lt hD0)
  have e1 : nextTimeout remindFirst s1 = some (TimerId.remindTimer, D) := by
    simp [nextTimeout, ha, hr, QTimer.start, QTimer.remaining, hDL]
  have e2 : nextTimeout remindFirst (step ty (step ty s1 (.elapse D.toNat)) .remindTimeout)
      = some (TimerId.activateTimer, L - D) := by
    cases hs : s.remindTimer.isSingleShot
    · simp [nextTimeout, step, ha, hr, QTimer.start, QTimer.remaining, QTimer.advance,
        QTimer.fire, remind, MainWindow.emit, hnat, hs, not_lt.2 (le_of_lt hDL2)]
      omega
    · simp [nextTimeout, step, ha, hr, QTimer.start, QTimer.remaining, QTimer.advance,
        QTimer.fire, remind, MainWindow.emit, hnat, hs]
  rw [lockCycle_remind ty remindFirst (fuel + 1) 0 D s1 e1,
    lockCycle_lock ty remindFirst fuel (0 + D) (L - D) _ e2]
  refine ⟨by simp, by simp, ?_⟩
  simp [step, remind, MainWindow.emit, hr, QTimer.start, QTimer.advance, hc.2.1]

/-! ## The clamp at startup -/

/-- Whatever the form and the member type: when the lock delay loaded at startup lies
in the range of the lock field and does not exceed the maximum the form gives the
remind field, the remind field can be set to that maximum, and Apply then stores and
uses a pair with remindTime >= activateTime. The constructor calls readSettings before
it connects valueChanged, so changeRemindBeforeMaxValue has not run for the loaded
lock delay. -/
theorem apply_unclamped_at_startup (ty : CInt) (ui : Ui) (store : QSettings) (tray : Bool)
    (hl0 : 0 ≤ loadedLock ty store)
    (hlock : ui.lockScreenSpinBox.minimum ≤ loadedLock ty store ∧
      loadedLock ty store ≤ ui.lockScreenSpinBox.maximum)
    (hrem : ui.remindSpinBox.minimum ≤ ui.remindSpinBox.maximum ∧
      loadedLock ty store ≤ ui.remindSpinBox.maximum)
    (hty : ui.remindSpinBox.maximum ≤ ty.maxVal ∧
      ui.remindSpinBox.maximum ≤ CInt.qint32.maxVal) :
    (run ty (MainWindow.construct ty ui store tray)
      [Event.editRemind ui.remindSpinBox.maximum, Event.click Button.Apply]).activateTime =
      loadedLock ty store ∧
    (run ty (MainWindow.construct ty ui store tray)
      [Event.editRemind ui.remindSpinBox.maximum, Event.click Button.Apply]).remindTime =
      ui.remindSpinBox.maximum ∧
    (run ty (MainWindow.construct ty ui store tray)
      [Event.editRemind ui.remindSpinBox.maximum, Event.click Button.Apply]).activateTime ≤
    (run ty (MainWindow.construct ty ui store tray)
      [Event.editRemind ui.remindSpinBox.maximum, Event.click Button.Apply]).remindTime := by
  have hf := construct_form ty ui store tray
  have c32 : CInt.qint32.convert (loadedLock ty store) = loadedLock ty store := by
    apply convert_of_holds
    simp [CInt.holds, CInt.minVal, CInt.maxVal, CInt.bits, CInt.isSigned] at *
    omega
  have hlv : (MainWindow.construct ty ui store tray).lockScreenSpinBox.value =
      loadedLock ty store := by
    rw [hf.1, c32]
    simp only [QSpinBox.setValue, QSpinBox.bound]
    split_ifs <;> omega
  have hrs : (MainWindow.construct ty ui store tray).remindSpinBox.minimum =
        ui.remindSpinBox.minimum ∧
      (MainWindow.construct ty ui store tray).remindSpinBox.maximum =
        ui.remindSpinBox.maximum := by
    rw [hf.2.1]; simp [QSpinBox.setValue]
  have cl : ty.convert (loadedLock ty store) = loadedLock ty store := by
    apply convert_of_holds
    cases ty <;>
      simp [CInt.holds, CInt.minVal, CInt.maxVal, CInt.bits, CInt.isSigned] at * <;> omega
  have cr : ty.convert ui.remindSpinBox.maximum = ui.remindSpinBox.maximum := by
    apply convert_of_holds
    cases ty <;>
      simp [CInt.holds, CInt.minVal, CInt.maxVal, CInt.bits, CInt.isSigned] at * <;> omega
  generalize MainWindow.construct ty ui store tray = s0 at hlv hrs
  have hb : (setRemindValue ui.remindSpinBox.maximum s0).remindSpinBox.value =
      ui.remindSpinBox.maximum := by
    simp only [setRemindValue, QSpinBox.setValue, QSpinBox.bound, hrs.1, hrs.2]
    split_ifs <;> omega
  have hlv2 : (setRemindValue ui.remindSpinBox.maximum s0).lockScreenSpinBox.value =
      loadedLock ty store := by
    simp only [setRemindValue]; exact hlv
  have hrun : run ty s0 [Event.editRemind ui.remindSpinBox.maximum, Event.click Button.Apply] =
      resetTimers ty (hide (writeSettings ty (setRemindValue ui.remindSpinBox.maximum s0))) := by
    simp [run, step, buttonBoxClicked]
  have hw := writeSettings_members ty (setRemindValue ui.remindSpinBox.maximum s0)
  have hc := resetTimers_config ty
    (hide (writeSettings ty (setRemindValue ui.remindSpinBox.maximum s0)))
  have ha : (run ty s0 [Event.editRemind ui.remindSpinBox.maximum,
      Event.click Button.Apply]).activateTime = loadedLock ty store := by
    rw [hrun, hc.1]
    simp only [hide, MainWindow.emit]
    rw [hw.1, hlv2, cl]
  have hr : (run ty s0 [Event.editRemind ui.remindSpinBox.maximum,
      Event.click Button.Apply]).remindTime = ui.remindSpinBox.maximum := by
    rw [hrun, hc.2.1]
    simp only [hide, MainWindow.emit]
    rw [hw.2.1, hb, cr]
  exact ⟨ha, hr, by rw [ha, hr]; exact hrem.2⟩

/-- An instance of the above with the Qt spin box ranges and the empty store. -/
theorem apply_unclamped_at_startup_qtDefault :
    (run CInt.quint8 (MainWindow.construct CInt.quint8 Ui.qtDefault [] true)
      [Event.editRemind Ui.qtDefault.remindSpinBox.maximum,
       Event.click Button.Apply]).remindTime = 99 :=
  (apply_unclamped_at_startup CInt.quint8 Ui.qtDefault [] true (by decide) (by decide)
    (by decide) (by decide)).2.1

/-- C2 on a store the program wrote itself, with the form laid out for the defaults
(lock field 1..99, remind field 0..19). First run, empty store: the user sets the remind
field to 15, lowers the lock delay to 10 (the clamp brings the remind field to 9) and
clicks Apply; the store holds lock_time = 10, remind_time = 9. Second run on that
store: the members are 10 and 9, the form shows lock 10 but the remind maximum is
still 19, because the constructor calls readSettings before it connects valueChanged.
The user sets the remind field to 15 and clicks Apply: writeSettings stores and
resetTimers uses remindTime = 15 with activateTime = 10, a remind delay of -300000 ms. -/
theorem apply_after_restart_unclamped :
    (run CInt.quint8 (MainWindow.construct CInt.quint8 Ui.fittedToDefaults [] true)
      [Event.editRemind 15, Event.editLock 10, Event.click Button.Apply]).settings =
      [("remind_time", 9), ("lock_time", 10)] ∧
    (MainWindow.construct CInt.quint8 Ui.fittedToDefaults
      [("remind_time", 9), ("lock_time", 10)] true).activateTime = 10 ∧
    (MainWindow.construct CInt.quint8 Ui.fittedToDefaults
      [("remind_time", 9), ("lock_time", 10)] true).remindTime = 9 ∧
    (MainWindow.construct CInt.quint8 Ui.fittedToDefaults
      [("remind_time", 9), ("lock_time", 10)] true).lockScreenSpinBox.value = 10 ∧
    (MainWindow.construct CInt.quint8 Ui.fittedToDefaults
      [("remind_time", 9), ("lock_time", 10)] true).remindSpinBox.maximum = 19 ∧
    (run CInt.quint8 (MainWindow.construct CInt.quint8 Ui.fittedToDefaults
        [("remind_time", 9), ("lock_time", 10)] true)
      [Event.editRemind 15, Event.click Button.Apply]).activateTime = 10 ∧
    (run CInt.quint8 (MainWindow.construct CInt.quint8 Ui.fittedToDefaults
        [("remind_time", 9), ("lock_time", 10)] true)
      [Event.editRemind 15, Event.click Button.Apply]).remindTime = 15 ∧
    (run CInt.quint8 (MainWindow.construct CInt.quint8 Ui.fittedToDefaults
        [("remind_time", 9), ("lock_time", 10)] true)
      [Event.editRemind 15, Event.click Button.Apply]).remindTimer.interval = -300000 ∧
    (run CInt.quint8 (MainWindow.construct CInt.quint8 Ui.fittedToDefaults
        [("remind_time", 9), ("lock_time", 10)] true)
      [Event.editRemind 15, Event.click Button.Apply]).settings.lookup "remind_time" =
      some 15 := by
  decide

end EyeRescue
